import Mathlib

/-!
Shallow embedding of the Vulkan starter project's initialization pipeline
(src/VulkanStarterProject/main.cpp) and proofs about its device-selection,
swapchain-negotiation and teardown logic.

Driver queries (layer/extension enumeration, surface-support queries,
framebuffer size, per-call success or failure of the driver) are modelled as
explicit inputs; the decision logic itself is translated function by function
from the C++ source.
-/

namespace VulkanStarter

/-! ## Vulkan constants used by the source -/

/-- Numeric value of VK_FORMAT_B8G8R8A8_SRGB in the Vulkan headers. -/
def VK_FORMAT_B8G8R8A8_SRGB : Nat := 50

/-- Numeric value of VK_COLOR_SPACE_SRGB_NONLINEAR_KHR. -/
def VK_COLOR_SPACE_SRGB_NONLINEAR_KHR : Nat := 0

/-- Numeric value of VK_PRESENT_MODE_MAILBOX_KHR. -/
def VK_PRESENT_MODE_MAILBOX_KHR : Nat := 1

/-- Numeric value of VK_PRESENT_MODE_FIFO_KHR. -/
def VK_PRESENT_MODE_FIFO_KHR : Nat := 2

/-- Numeric value of VK_QUEUE_GRAPHICS_BIT (bit 0 of the queue-flags mask). -/
def VK_QUEUE_GRAPHICS_BIT : Nat := 1

/-- The sentinel used by chooseSwapExtent: the largest 32-bit unsigned value. -/
def UINT32_MAX : Nat := 2 ^ 32 - 1

/-- EXIT_SUCCESS, the value main returns on clean shutdown. -/
def EXIT_SUCCESS : Nat := 0

/-- EXIT_FAILURE, the value main returns after catching a setup exception. -/
def EXIT_FAILURE : Nat := 1

/-- The errors the source throws (as std::runtime_error with fixed messages),
named after the spec's error taxonomy. -/
inductive VkError where
  | UnsupportedLayer
  | InstanceCreationFailed
  | SurfaceCreationFailed
  | NoVulkanCapableGPU
  | NoSuitableGPU
  | LogicalDeviceCreationFailed
  | SwapchainCreationFailed
  | ImageViewCreationFailed
deriving DecidableEq, Repr

/-! ## Queue-family resolution (findQueueFamilies, main.cpp lines 345-372) -/

/-- One entry of the list produced by vkGetPhysicalDeviceQueueFamilyProperties,
together with the answer of the per-family surface-support query
(vkGetPhysicalDeviceSurfaceSupportKHR for this family and the fixed surface). -/
structure VkQueueFamilyProperties where
  queueFlags : Nat
  presentationSupport : Bool
deriving DecidableEq, Repr

/-- The test at line 360 of the source: (queueFlags & VK_QUEUE_GRAPHICS_BIT) != 0. -/
def hasGraphicsBit (q : VkQueueFamilyProperties) : Bool :=
  (q.queueFlags &&& VK_QUEUE_GRAPHICS_BIT) != 0

/-- QueueFamilyIndices from the source: a pair of optional family indices. -/
structure QueueFamilyIndices where
  graphicsFamily : Option Nat := none
  presentationFamily : Option Nat := none
deriving DecidableEq, Repr

/-- QueueFamilyIndices::isComplete from the source. -/
def QueueFamilyIndices.isComplete (q : QueueFamilyIndices) : Bool :=
  q.graphicsFamily.isSome && q.presentationFamily.isSome

/-- The loop body of findQueueFamilies (main.cpp lines 355-369): at each index,
first break if the indices are already complete, then assign graphicsFamily
when the graphics bit is set and presentationFamily when the surface reports
presentation support.  Both assignments overwrite any previously recorded
index. -/
def findQueueFamiliesLoop :
    List VkQueueFamilyProperties → Nat → QueueFamilyIndices → QueueFamilyIndices
  | [], _, indices => indices
  | q :: rest, i, indices =>
    if indices.isComplete then
      indices
    else
      let indices1 :=
        if hasGraphicsBit q then { indices with graphicsFamily := some i } else indices
      let indices2 :=
        if q.presentationSupport then
          { indices1 with presentationFamily := some i }
        else indices1
      findQueueFamiliesLoop rest (i + 1) indices2

/-- findQueueFamilies from the source, as a function of the queue-family
property list of the candidate device (with the per-family surface-support
answers baked into each entry). -/
def findQueueFamilies (props : List VkQueueFamilyProperties) : QueueFamilyIndices :=
  findQueueFamiliesLoop props 0 {}

/-! ## Surface-capability records -/

/-- A (format, color-space) pair as returned by the surface-format query. -/
structure VkSurfaceFormatKHR where
  format : Nat
  colorSpace : Nat
deriving DecidableEq, Repr

/-- A width/height pixel extent. -/
structure VkExtent2D where
  width : Nat
  height : Nat
deriving DecidableEq, Repr

/-- The fields of VkSurfaceCapabilitiesKHR that the source reads. -/
structure VkSurfaceCapabilitiesKHR where
  minImageCount : Nat
  maxImageCount : Nat
  currentExtent : VkExtent2D
  minImageExtent : VkExtent2D
  maxImageExtent : VkExtent2D
deriving DecidableEq, Repr

/-! ## Device suitability and selection (main.cpp lines 273-334) -/

/-- deviceExtensions from the source: the required device-extension list,
containing only VK_KHR_SWAPCHAIN_EXTENSION_NAME. -/
def deviceExtensions : List String := ["VK_KHR_swapchain"]

/-- One enumerated physical device, carrying the answers of every driver query
the selector performs on it: its queue-family properties (with surface-support
answers), its supported extension names, and its surface-format and
present-mode lists from querySwapChainSupport. -/
structure PhysicalDevice where
  queueFamilies : List VkQueueFamilyProperties
  extensions : List String
  formats : List VkSurfaceFormatKHR
  presentModes : List Nat
deriving DecidableEq, Repr

/-- checkDeviceExtensionSupport from the source: build the set of required
extension names, erase every name the device reports, succeed iff the set is
drained — i.e. iff every required name occurs among the device's extensions. -/
def checkDeviceExtensionSupport (d : PhysicalDevice) : Bool :=
  deviceExtensions.all (fun r => d.extensions.contains r)

/-- isDeviceSuitable from the source (main.cpp lines 301-314). -/
def isDeviceSuitable (d : PhysicalDevice) : Bool :=
  let indices := findQueueFamilies d.queueFamilies
  let extensionSupported := checkDeviceExtensionSupport d
  let swapChainAdequate :=
    if extensionSupported then !d.formats.isEmpty && !d.presentModes.isEmpty else false
  indices.isComplete && extensionSupported && swapChainAdequate

/-- pickPhysicalDevice from the source (main.cpp lines 273-298): fail when the
enumeration is empty, otherwise take the first suitable device of the list and
fail when none is suitable. -/
def pickPhysicalDevice (devices : List PhysicalDevice) : Except VkError PhysicalDevice :=
  if devices.isEmpty then
    .error .NoVulkanCapableGPU
  else
    match devices.find? isDeviceSuitable with
    | some d => .ok d
    | none => .error .NoSuitableGPU

/-! ## Swapchain negotiation helpers (main.cpp lines 143-202 and 403-454) -/

/-- The match tested by chooseSwapSurfaceFormat's loop (main.cpp line 408). -/
def isPreferredFormat (f : VkSurfaceFormatKHR) : Bool :=
  f.format == VK_FORMAT_B8G8R8A8_SRGB && f.colorSpace == VK_COLOR_SPACE_SRGB_NONLINEAR_KHR

/-- chooseSwapSurfaceFormat from the source (main.cpp lines 406-413): return
the first preferred pair of the list, else the element at index 0.  The C++
indexes an empty list out of bounds; the embedding totalizes that case to
none. -/
def chooseSwapSurfaceFormat (availableFormats : List VkSurfaceFormatKHR) :
    Option VkSurfaceFormatKHR :=
  match availableFormats.find? isPreferredFormat with
  | some f => some f
  | none => availableFormats.head?

/-- std::clamp on Nat: clamp v into the closed interval from lo to hi,
returning lo when v < lo, hi when hi < v, and v otherwise. -/
def stdClamp (v lo hi : Nat) : Nat :=
  if v < lo then lo else if hi < v then hi else v

/-- chooseSwapExtent from the source (main.cpp lines 436-454), with the
framebuffer size returned by glfwGetFramebufferSize passed in explicitly. -/
def chooseSwapExtent (capabilities : VkSurfaceCapabilitiesKHR)
    (framebuffer : VkExtent2D) : VkExtent2D :=
  if capabilities.currentExtent.width != UINT32_MAX then
    capabilities.currentExtent
  else
    { width := stdClamp framebuffer.width
        capabilities.minImageExtent.width capabilities.maxImageExtent.width,
      height := stdClamp framebuffer.height
        capabilities.minImageExtent.height capabilities.maxImageExtent.height }

/-- The image-count computation of createSwapChain (main.cpp lines 150-153).
imageCount is a uint32_t, so the addition at line 150 wraps modulo 2^32: at
minImageCount = 2^32 - 1 the sum is 0, the guard 0 > maxImageCount is false,
and 0 is returned unclamped. -/
def swapImageCount (capabilities : VkSurfaceCapabilitiesKHR) : Nat :=
  let imageCount := (capabilities.minImageCount + 1) % 2 ^ 32
  if capabilities.maxImageCount > 0 && imageCount > capabilities.maxImageCount then
    capabilities.maxImageCount
  else
    imageCount

/-- VkSharingMode values used by the source. -/
inductive VkSharingMode where
  | exclusive
  | concurrent
deriving DecidableEq, Repr

/-- The three sharing-related fields of VkSwapchainCreateInfoKHR that
createSwapChain fills (main.cpp lines 166-181); pQueueFamilyIndices is the
list the count refers to, empty when the source leaves it null. -/
structure SwapchainSharingInfo where
  imageSharingMode : VkSharingMode
  queueFamilyIndexCount : Nat
  pQueueFamilyIndices : List Nat
deriving DecidableEq, Repr

/-- The sharing-mode branch of createSwapChain (main.cpp lines 166-181), as a
function of the two resolved queue-family indices. -/
def swapchainSharing (graphicsFamily presentationFamily : Nat) : SwapchainSharingInfo :=
  if graphicsFamily != presentationFamily then
    { imageSharingMode := .concurrent,
      queueFamilyIndexCount := 2,
      pQueueFamilyIndices := [graphicsFamily, presentationFamily] }
  else
    { imageSharingMode := .exclusive,
      queueFamilyIndexCount := 0,
      pQueueFamilyIndices := [] }

/-! ## Instance creation (createInstance, main.cpp lines 477-537) -/

/-- validationLayers from the source. -/
def validationLayers : List String := ["VK_LAYER_KHRONOS_validation"]

/-- The fields of VkInstanceCreateInfo that createInstance assigns. -/
structure VkInstanceCreateInfo where
  enabledLayerCount : Nat
  ppEnabledLayerNames : List String
  enabledExtensionCount : Nat
  ppEnabledExtensionNames : List String
deriving DecidableEq, Repr

/-- createInstance from the source (main.cpp lines 477-537), up to the
VkInstanceCreateInfo record handed to vkCreateInstance.  Inputs: the
compile-time enableValidationLayers flag, the result of
checkValidationLayerSupport, and the extension names reported by
glfwGetRequiredInstanceExtensions.  Mirrors the assignment order of the
source: the validation branch sets enabledLayerCount and the layer list
first (lines 494-499), the extension fields are set next (lines 510-517),
and line 530 then unconditionally re-assigns enabledLayerCount to 0 before
the driver call. -/
def createInstanceInfo (enableValidationLayers : Bool) (layerSupport : Bool)
    (glfwExtensions : List String) : Except VkError VkInstanceCreateInfo :=
  if enableValidationLayers && !layerSupport then
    .error .UnsupportedLayer
  else
    let createInfo : VkInstanceCreateInfo :=
      { enabledLayerCount := 0, ppEnabledLayerNames := [],
        enabledExtensionCount := 0, ppEnabledExtensionNames := [] }
    let createInfo :=
      if enableValidationLayers then
        { createInfo with
          enabledLayerCount := validationLayers.length,
          ppEnabledLayerNames := validationLayers }
      else
        { createInfo with enabledLayerCount := 0 }
    let requiredExtensions := glfwExtensions ++ ["VK_KHR_portability_enumeration"]
    let createInfo :=
      { createInfo with
        enabledExtensionCount := requiredExtensions.length,
        ppEnabledExtensionNames := requiredExtensions }
    let createInfo := { createInfo with enabledLayerCount := 0 }
    .ok createInfo

/-! ## Run, teardown and error propagation (run, cleanup, main) -/

/-- Driver calls that create or destroy the resources the claims track.  The
image-view events carry the index of the swapchain image the view belongs
to. -/
inductive Event where
  | CreateInstance
  | CreateSurface
  | CreateDevice
  | CreateSwapchain
  | CreateImageView (i : Nat)
  | DestroyImageView (i : Nat)
  | DestroySwapchain
  | DestroyDevice
  | DestroySurface
  | DestroyInstance
deriving DecidableEq, Repr

/-- Whether an event is one of the resource-releasing driver calls. -/
def Event.isDestroy : Event → Bool
  | .DestroyImageView _ => true
  | .DestroySwapchain => true
  | .DestroyDevice => true
  | .DestroySurface => true
  | .DestroyInstance => true
  | _ => false

/-- The loop of createImageViews (main.cpp lines 114-141): one
vkCreateImageView call per swapchain image in index order; on the first
failing call it throws ImageViewCreationFailed at once, keeping the views
already created and destroying nothing.  The input list gives the success or
failure of each vkCreateImageView call; the result is the emitted events and
the outcome. -/
def createImageViewsLoop : List Bool → Nat → List Event × Except VkError Unit
  | [], _ => ([], .ok ())
  | ok :: rest, i =>
    if ok then
      let (events, r) := createImageViewsLoop rest (i + 1)
      (Event.CreateImageView i :: events, r)
    else
      ([], .error .ImageViewCreationFailed)

/-- cleanup from the source (main.cpp lines 463-475): destroy each image view
in the forward order of swapChainImageViews, then the swapchain, the logical
device, the surface and the instance. -/
def cleanup (numViews : Nat) : List Event :=
  (List.range numViews).map Event.DestroyImageView ++
    [Event.DestroySwapchain, Event.DestroyDevice, Event.DestroySurface, Event.DestroyInstance]

/-- The outcomes of every driver call one process run performs, in program
order: whether checkValidationLayerSupport succeeds, whether vkCreateInstance
succeeds, whether glfwCreateWindowSurface succeeds, the enumerated physical
devices with their query answers, whether vkCreateDevice succeeds, whether
vkCreateSwapchainKHR succeeds, and the per-image outcome of each
vkCreateImageView call (its length is the swapchain's image count). -/
structure Env where
  layerSupport : Bool
  instanceOk : Bool
  surfaceOk : Bool
  devices : List PhysicalDevice
  logicalDeviceOk : Bool
  swapchainOk : Bool
  imageViewOk : List Bool
deriving DecidableEq, Repr

/-- run from the source (main.cpp lines 60-65) under the driver outcomes of
env: initVulkan's steps in order, each throwing on failure, then mainLoop
(no resource events) and cleanup.  A thrown error aborts the sequence at
once — the remaining steps, including cleanup, do not run (main catches the
exception outside run).  Returns the emitted events and the outcome. -/
def runTrace (enableValidationLayers : Bool) (env : Env) :
    List Event × Except VkError Unit :=
  if enableValidationLayers && !env.layerSupport then
    ([], .error .UnsupportedLayer)
  else if !env.instanceOk then
    ([], .error .InstanceCreationFailed)
  else if !env.surfaceOk then
    ([Event.CreateInstance], .error .SurfaceCreationFailed)
  else
    match pickPhysicalDevice env.devices with
    | .error e => ([Event.CreateInstance, Event.CreateSurface], .error e)
    | .ok _ =>
      if !env.logicalDeviceOk then
        ([Event.CreateInstance, Event.CreateSurface], .error .LogicalDeviceCreationFailed)
      else if !env.swapchainOk then
        ([Event.CreateInstance, Event.CreateSurface, Event.CreateDevice],
          .error .SwapchainCreationFailed)
      else
        let (viewEvents, r) := createImageViewsLoop env.imageViewOk 0
        let setupEvents :=
          [Event.CreateInstance, Event.CreateSurface, Event.CreateDevice,
            Event.CreateSwapchain] ++ viewEvents
        match r with
        | .error e => (setupEvents, .error e)
        | .ok _ => (setupEvents ++ cleanup env.imageViewOk.length, .ok ())

/-- main from the source (main.cpp lines 540-551): run the application,
catch any exception, and exit with EXIT_FAILURE after a caught error and
EXIT_SUCCESS otherwise. -/
def mainExit (enableValidationLayers : Bool) (env : Env) : Nat :=
  match (runTrace enableValidationLayers env).2 with
  | .ok _ => EXIT_SUCCESS
  | .error _ => EXIT_FAILURE

/-! ## Closed-form descriptions used to characterize the loops -/

/-- How many queue families the findQueueFamilies loop examines when started
in a state where a graphics index is already recorded iff gs and a
presentation index iff ps: the loop breaks at the top of the first iteration
at which both are recorded, so it consumes entries until then (or the whole
list). -/
def scannedCount : List VkQueueFamilyProperties → Bool → Bool → Nat
  | [], _, _ => 0
  | q :: rest, gs, ps =>
    if gs && ps then 0
    else scannedCount rest (gs || hasGraphicsBit q) (ps || q.presentationSupport) + 1

/-- Index of the last entry of the list satisfying f, if any, where the head
of the list sits at absolute index base.  Because the findQueueFamilies loop
overwrites its recorded index at every satisfying entry, the survivor is the
last satisfying index of the scanned prefix. -/
def lastSatIdxFrom (f : VkQueueFamilyProperties → Bool) :
    Nat → List VkQueueFamilyProperties → Option Nat
  | _, [] => none
  | base, q :: rest =>
    match lastSatIdxFrom f (base + 1) rest with
    | some j => some j
    | none => if f q then some base else none

/-- The first option when it is set, the fallback otherwise: how a newly
scanned prefix combines with a previously recorded index. -/
def orElseOpt (o fallback : Option Nat) : Option Nat :=
  match o with
  | some j => some j
  | none => fallback

/-- The preferred surface format of chooseSwapSurfaceFormat:
(VK_FORMAT_B8G8R8A8_SRGB, VK_COLOR_SPACE_SRGB_NONLINEAR_KHR). -/
def preferredSurfaceFormat : VkSurfaceFormatKHR :=
  { format := VK_FORMAT_B8G8R8A8_SRGB, colorSpace := VK_COLOR_SPACE_SRGB_NONLINEAR_KHR }

/-! ## Concrete fixtures used to instantiate the theorems -/

/-- A device that passes all three suitability checks: one graphics-capable
presenting queue family, the swapchain extension, a non-empty format list and
a non-empty present-mode list. -/
def fakeSuitableDevice : PhysicalDevice :=
  { queueFamilies := [{ queueFlags := 1, presentationSupport := true }],
    extensions := ["VK_KHR_swapchain"],
    formats := [{ format := 50, colorSpace := 0 }],
    presentModes := [2] }

/-- A second suitable device, distinguishable from the first. -/
def fakeSuitableDevice2 : PhysicalDevice :=
  { fakeSuitableDevice with presentModes := [1, 2] }

/-- A device that fails every suitability check. -/
def fakeUnsuitableDevice : PhysicalDevice :=
  { queueFamilies := [{ queueFlags := 0, presentationSupport := false }],
    extensions := [], formats := [], presentModes := [] }

/-- Driver outcomes where swapchain creation fails after instance, surface
and logical device succeeded. -/
def envSwapchainFails : Env :=
  { layerSupport := true, instanceOk := true, surfaceOk := true,
    devices := [fakeSuitableDevice], logicalDeviceOk := true,
    swapchainOk := false, imageViewOk := [true, true] }

/-- Driver outcomes where every setup step succeeds and the swapchain has two
images. -/
def envAllOk : Env :=
  { layerSupport := true, instanceOk := true, surfaceOk := true,
    devices := [fakeSuitableDevice], logicalDeviceOk := true,
    swapchainOk := true, imageViewOk := [true, true] }

/-! ## Helper lemmas -/

/-- std::clamp agrees with the max/min composition on a sound interval. -/
theorem stdClamp_eq_max_min (v lo hi : Nat) (h : lo ≤ hi) :
    stdClamp v lo hi = max lo (min v hi) := by
  unfold stdClamp
  split
  · omega
  · split <;> omega

/-- If position i holds the first element of l satisfying p, then find?
returns that element. -/
theorem find?_of_first_sat {α : Type} (p : α → Bool) :
    ∀ (l : List α) (i : Nat) (h : i < l.length),
      p (l.get ⟨i, h⟩) = true →
      (∀ j (hj : j < i), p (l.get ⟨j, Nat.lt_trans hj h⟩) = false) →
      l.find? p = some (l.get ⟨i, h⟩)
  | [], i, h, _, _ => absurd h (by simp)
  | a :: t, 0, _, hp, _ => by
    have hpa : p a = true := hp
    exact List.find?_cons_of_pos _ hpa
  | a :: t, i + 1, h, hp, hmin => by
    have ha : p a = false := hmin 0 (Nat.succ_pos i)
    rw [List.find?_cons_of_neg _ (by simp [ha])]
    exact find?_of_first_sat p t i (Nat.lt_of_succ_lt_succ h) hp
      (fun j hj => hmin (j + 1) (Nat.succ_lt_succ hj))

/-- The loop test of chooseSwapSurfaceFormat holds exactly of the preferred
pair. -/
theorem isPreferredFormat_iff (f : VkSurfaceFormatKHR) :
    isPreferredFormat f = true ↔ f = preferredSurfaceFormat := by
  cases f
  simp [isPreferredFormat, preferredSurfaceFormat, VkSurfaceFormatKHR.mk.injEq]

/-! ## Claims -/

/-- C8 (amended): the requested swapchain image count is the uint32-wrapped
sum (minImageCount + 1) mod 2^32, clamped down to the reported maximum
exactly when that maximum is nonzero and smaller than the wrapped sum.  For
every minImageCount below 2^32 - 1 the wrapped sum is minImageCount + 1 and
the original clamping description holds; at minImageCount = 2^32 - 1 the sum
wraps to 0 and is returned unclamped. -/
theorem swapImageCount_wrapped_min_plus_one_clamped (caps : VkSurfaceCapabilitiesKHR) :
    (caps.maxImageCount ≠ 0 →
      caps.maxImageCount < (caps.minImageCount + 1) % 2 ^ 32 →
      swapImageCount caps = caps.maxImageCount) ∧
    (caps.maxImageCount = 0 ∨ (caps.minImageCount + 1) % 2 ^ 32 ≤ caps.maxImageCount →
      swapImageCount caps = (caps.minImageCount + 1) % 2 ^ 32) := by
  unfold swapImageCount
  dsimp only
  constructor
  · intro h1 h2
    split
    · rfl
    · rename_i hcond
      simp only [Bool.and_eq_true, decide_eq_true_eq, not_and] at hcond
      omega
  · intro h
    split
    · rename_i hcond
      simp only [Bool.and_eq_true, decide_eq_true_eq] at hcond
      omega
    · rfl

/-- C8 witness: with a reported minimum of 3 and maximum of 3 the request
(3 + 1) mod 2^32 = 4 is clamped down to 3, and at the wrap input
minImageCount = 2^32 - 1 with maximum 5 the wrapped sum 0 is returned. -/
theorem swapImageCount_wrapped_min_plus_one_clamped_witness :
    swapImageCount ({ minImageCount := 3, maxImageCount := 3,
                      currentExtent := { width := 0, height := 0 },
                      minImageExtent := { width := 0, height := 0 },
                      maxImageExtent := { width := 0, height := 0 } } :
                    VkSurfaceCapabilitiesKHR) = 3 ∧
    swapImageCount ({ minImageCount := 2 ^ 32 - 1, maxImageCount := 5,
                      currentExtent := { width := 0, height := 0 },
                      minImageExtent := { width := 0, height := 0 },
                      maxImageExtent := { width := 0, height := 0 } } :
                    VkSurfaceCapabilitiesKHR) = 0 :=
  ⟨(swapImageCount_wrapped_min_plus_one_clamped _).1 (by decide) (by decide),
    ((swapImageCount_wrapped_min_plus_one_clamped _).2 (Or.inr (by decide))).trans
      (by decide)⟩

/-- C8 counterexample: at the uint32 record minImageCount = 2^32 - 1,
maxImageCount = 5, the claim's clamping case applies (the maximum 5 is
nonzero and smaller than the sum minImageCount + 1) and predicts a request
of 5, but the source's uint32 addition wraps to 0, the guard 0 > 5 is false,
and the program requests 0. -/
theorem swapImageCount_wrap_cex :
    swapImageCount ({ minImageCount := 2 ^ 32 - 1, maxImageCount := 5,
                      currentExtent := { width := 0, height := 0 },
                      minImageExtent := { width := 0, height := 0 },
                      maxImageExtent := { width := 0, height := 0 } } :
                    VkSurfaceCapabilitiesKHR) = 0 ∧
    (5 : Nat) ≠ 0 ∧
    (5 : Nat) < (2 ^ 32 - 1) + 1 := by
  refine ⟨?_, by decide, by norm_num⟩
  decide

/-- C7: swapchain creation declares concurrent sharing across exactly the two
resolved families (count 2) when they differ, and exclusive sharing with an
empty family list when they coincide. -/
theorem swapchainSharing_concurrent_iff_distinct (g p : Nat) :
    (g ≠ p → swapchainSharing g p =
      { imageSharingMode := .concurrent, queueFamilyIndexCount := 2,
        pQueueFamilyIndices := [g, p] }) ∧
    (g = p → swapchainSharing g p =
      { imageSharingMode := .exclusive, queueFamilyIndexCount := 0,
        pQueueFamilyIndices := [] }) := by
  unfold swapchainSharing
  constructor
  · intro h
    rw [if_pos]
    simpa using h
  · intro h
    subst h
    simp

/-- C7 witness: families 2 and 2 give exclusive sharing with no listed
family; families 1 and 2 give concurrent sharing over the list 1, 2. -/
theorem swapchainSharing_concurrent_iff_distinct_witness :
    swapchainSharing 2 2 =
      { imageSharingMode := .exclusive, queueFamilyIndexCount := 0,
        pQueueFamilyIndices := [] } ∧
    swapchainSharing 1 2 =
      { imageSharingMode := .concurrent, queueFamilyIndexCount := 2,
        pQueueFamilyIndices := [1, 2] } :=
  ⟨(swapchainSharing_concurrent_iff_distinct 2 2).2 rfl,
    (swapchainSharing_concurrent_iff_distinct 1 2).1 (by decide)⟩

/-- C6: extent selection returns the reported current extent verbatim
whenever its width differs from the 32-bit sentinel; otherwise each
framebuffer dimension is independently clamped into the min/max extent
bounds. -/
theorem chooseSwapExtent_sentinel_clamps (caps : VkSurfaceCapabilitiesKHR)
    (fb : VkExtent2D) :
    (caps.currentExtent.width ≠ UINT32_MAX →
      chooseSwapExtent caps fb = caps.currentExtent) ∧
    (caps.currentExtent.width = UINT32_MAX →
      caps.minImageExtent.width ≤ caps.maxImageExtent.width →
      caps.minImageExtent.height ≤ caps.maxImageExtent.height →
      chooseSwapExtent caps fb =
        { width := max caps.minImageExtent.width (min fb.width caps.maxImageExtent.width),
          height := max caps.minImageExtent.height (min fb.height caps.maxImageExtent.height) }) := by
  unfold chooseSwapExtent
  constructor
  · intro h
    rw [if_pos]
    simpa using h
  · intro h hw hh
    rw [if_neg (by simpa using h)]
    rw [stdClamp_eq_max_min _ _ _ hw, stdClamp_eq_max_min _ _ _ hh]

/-- C6 witness: sentinel current extent, bounds (1,1)-(4096,4096) and a
framebuffer of (10000, 50) give (4096, 50); a non-sentinel current extent of
(800, 600) is returned verbatim. -/
theorem chooseSwapExtent_sentinel_clamps_witness :
    chooseSwapExtent
      ({ minImageCount := 1, maxImageCount := 0,
         currentExtent := { width := UINT32_MAX, height := 600 },
         minImageExtent := { width := 1, height := 1 },
         maxImageExtent := { width := 4096, height := 4096 } } : VkSurfaceCapabilitiesKHR)
      ({ width := 10000, height := 50 } : VkExtent2D) =
      ({ width := 4096, height := 50 } : VkExtent2D) ∧
    chooseSwapExtent
      ({ minImageCount := 1, maxImageCount := 0,
         currentExtent := { width := 800, height := 600 },
         minImageExtent := { width := 1, height := 1 },
         maxImageExtent := { width := 4096, height := 4096 } } : VkSurfaceCapabilitiesKHR)
      ({ width := 10000, height := 50 } : VkExtent2D) =
      ({ width := 800, height := 600 } : VkExtent2D) :=
  ⟨((chooseSwapExtent_sentinel_clamps _ _).2 rfl (by decide) (by decide)).trans (by decide),
    (chooseSwapExtent_sentinel_clamps _ _).1 (by decide)⟩

/-- C10: whatever the validation setting and the layer-support answer, an
instance-creation request that reaches the driver carries an enabled-layer
count of zero, because line 530 of the source overwrites the count after the
validation branch set it. -/
theorem createInstanceInfo_zero_layer_count (v s : Bool) (exts : List String)
    (ci : VkInstanceCreateInfo) (h : createInstanceInfo v s exts = .ok ci) :
    ci.enabledLayerCount = 0 := by
  unfold createInstanceInfo at h
  split at h
  · simp at h
  · simp only [Except.ok.injEq] at h
    subst h
    rfl

/-- C10 witness: with validation requested and supported, the request still
reaches the driver with zero enabled layers (while the layer-name pointer was
set to the validation-layer list). -/
theorem createInstanceInfo_zero_layer_count_witness :
    createInstanceInfo true true [] =
      .ok { enabledLayerCount := 0, ppEnabledLayerNames := validationLayers,
            enabledExtensionCount := 1,
            ppEnabledExtensionNames := ["VK_KHR_portability_enumeration"] } ∧
    ({ enabledLayerCount := 0, ppEnabledLayerNames := validationLayers,
       enabledExtensionCount := 1,
       ppEnabledExtensionNames := ["VK_KHR_portability_enumeration"] } :
      VkInstanceCreateInfo).enabledLayerCount = 0 :=
  ⟨rfl, createInstanceInfo_zero_layer_count true true [] _ rfl⟩

/-- C5: for every non-empty format list, surface-format selection returns the
first pair equal to (B8G8R8A8-sRGB, sRGB-nonlinear); when no pair equals it,
it returns the element at index 0. -/
theorem chooseSwapSurfaceFormat_first_preferred (formats : List VkSurfaceFormatKHR)
    (hne : formats ≠ []) :
    (∀ i (h : i < formats.length),
      formats.get ⟨i, h⟩ = preferredSurfaceFormat →
      (∀ j (hj : j < i), formats.get ⟨j, Nat.lt_trans hj h⟩ ≠ preferredSurfaceFormat) →
      chooseSwapSurfaceFormat formats = some preferredSurfaceFormat) ∧
    (preferredSurfaceFormat ∉ formats →
      chooseSwapSurfaceFormat formats = some (formats.get ⟨0, List.length_pos.mpr hne⟩)) := by
  constructor
  · intro i h hp hmin
    have hfind := find?_of_first_sat isPreferredFormat formats i h
      ((isPreferredFormat_iff _).mpr hp)
      (fun j hj => Bool.eq_false_iff.mpr
        (fun htrue => hmin j hj ((isPreferredFormat_iff _).mp htrue)))
    unfold chooseSwapSurfaceFormat
    rw [hfind, hp]
  · intro hnotin
    have hfind : formats.find? isPreferredFormat = none :=
      List.find?_eq_none.mpr (fun x hx hpx =>
        hnotin (((isPreferredFormat_iff x).mp hpx) ▸ hx))
    unfold chooseSwapSurfaceFormat
    rw [hfind]
    obtain ⟨a, l, rfl⟩ := List.exists_cons_of_ne_nil hne
    rfl

/-- C5 witness: with the preferred pair at index 2 the selection returns it;
with a list not containing it the selection returns the element at
index 0. -/
theorem chooseSwapSurfaceFormat_first_preferred_witness :
    chooseSwapSurfaceFormat
      [{ format := 0, colorSpace := 0 }, { format := 44, colorSpace := 0 },
       { format := 50, colorSpace := 0 }] = some preferredSurfaceFormat ∧
    chooseSwapSurfaceFormat
      [{ format := 0, colorSpace := 0 }, { format := 44, colorSpace := 0 }] =
      some { format := 0, colorSpace := 0 } := by
  constructor
  · refine (chooseSwapSurfaceFormat_first_preferred _ (by decide)).1 2 (by decide)
      (by decide) ?_
    intro j hj
    rcases j with _ | _ | j
    · exact (by decide :
        ({ format := 0, colorSpace := 0 } : VkSurfaceFormatKHR) ≠ preferredSurfaceFormat)
    · exact (by decide :
        ({ format := 44, colorSpace := 0 } : VkSurfaceFormatKHR) ≠ preferredSurfaceFormat)
    · omega
  · exact ((chooseSwapSurfaceFormat_first_preferred _ (by decide)).2 (by decide)).trans
      (by decide)

/-- C1: pickPhysicalDevice fails with NoVulkanCapableGPU on an empty device
list, fails with NoSuitableGPU when no device is suitable, and otherwise
returns the first suitable device in enumeration order (a device is suitable
iff its queue-family resolution is complete, it supports every required
extension, and its surface snapshot has a format and a present mode). -/
theorem pickPhysicalDevice_first_suitable (devices : List PhysicalDevice) :
    (devices = [] → pickPhysicalDevice devices = .error .NoVulkanCapableGPU) ∧
    (devices ≠ [] → (∀ d ∈ devices, isDeviceSuitable d = false) →
      pickPhysicalDevice devices = .error .NoSuitableGPU) ∧
    (∀ i (h : i < devices.length),
      isDeviceSuitable (devices.get ⟨i, h⟩) = true →
      (∀ j (hj : j < i), isDeviceSuitable (devices.get ⟨j, Nat.lt_trans hj h⟩) = false) →
      pickPhysicalDevice devices = .ok (devices.get ⟨i, h⟩)) := by
  refine ⟨?_, ?_, ?_⟩
  · intro h
    subst h
    rfl
  · intro hne hall
    unfold pickPhysicalDevice
    rw [if_neg (by simpa using hne)]
    rw [List.find?_eq_none.mpr (fun x hx => by simp [hall x hx])]
  · intro i h hp hmin
    have hne : devices ≠ [] := by
      intro e
      subst e
      exact absurd h (by simp)
    unfold pickPhysicalDevice
    rw [if_neg (by simpa using hne)]
    rw [find?_of_first_sat isDeviceSuitable devices i h hp hmin]

/-- C1 witness: the empty list fails with NoVulkanCapableGPU, a list with
only an unsuitable device fails with NoSuitableGPU, and of two suitable
devices the earlier one wins. -/
theorem pickPhysicalDevice_first_suitable_witness :
    pickPhysicalDevice [] = .error .NoVulkanCapableGPU ∧
    pickPhysicalDevice [fakeUnsuitableDevice] = .error .NoSuitableGPU ∧
    pickPhysicalDevice [fakeSuitableDevice, fakeSuitableDevice2] = .ok fakeSuitableDevice ∧
    isDeviceSuitable fakeSuitableDevice2 = true := by
  refine ⟨?_, ?_, ?_, ?_⟩
  · exact (pickPhysicalDevice_first_suitable []).1 rfl
  · exact (pickPhysicalDevice_first_suitable _).2.1 (by decide) (by decide)
  · exact (pickPhysicalDevice_first_suitable _).2.2 0 (by decide) (by decide)
      (fun j hj => absurd hj (Nat.not_lt_zero j))
  · decide

/-- Scanning one more family shifts the last-satisfying-index computation:
the head becomes the fallback candidate for the tail's scan. -/
theorem orElseOpt_cons_shift (f : VkQueueFamilyProperties → Bool)
    (q : VkQueueFamilyProperties) (tk : List VkQueueFamilyProperties)
    (i : Nat) (old : Option Nat) :
    orElseOpt (lastSatIdxFrom f i (q :: tk)) old =
      orElseOpt (lastSatIdxFrom f (i + 1) tk) (if f q then some i else old) := by
  simp only [lastSatIdxFrom]
  cases hl : lastSatIdxFrom f (i + 1) tk <;> cases hf : f q <;>
    simp [orElseOpt, hf]

/-- Closed form of the findQueueFamilies loop: starting at absolute index i
with recorded indices g and p, the loop examines scannedCount further
families and, for each of the two tests, ends with the last satisfying index
of that scanned prefix, keeping the incoming record when the prefix has no
satisfying entry. -/
theorem findQueueFamiliesLoop_closed_form :
    ∀ (props : List VkQueueFamilyProperties) (i : Nat) (g p : Option Nat),
      findQueueFamiliesLoop props i ⟨g, p⟩ =
        { graphicsFamily :=
            orElseOpt (lastSatIdxFrom hasGraphicsBit i
              (props.take (scannedCount props g.isSome p.isSome))) g,
          presentationFamily :=
            orElseOpt (lastSatIdxFrom (fun q => q.presentationSupport) i
              (props.take (scannedCount props g.isSome p.isSome))) p }
  | [], i, g, p => by
    simp [findQueueFamiliesLoop, scannedCount, lastSatIdxFrom, orElseOpt]
  | q :: rest, i, g, p => by
    by_cases hc : (g.isSome && p.isSome) = true
    · simp only [findQueueFamiliesLoop, QueueFamilyIndices.isComplete, scannedCount]
      rw [if_pos hc, if_pos hc]
      simp [lastSatIdxFrom, orElseOpt]
    · simp only [findQueueFamiliesLoop, QueueFamilyIndices.isComplete, scannedCount]
      rw [if_neg hc, if_neg hc, List.take_succ_cons]
      rw [orElseOpt_cons_shift, orElseOpt_cons_shift]
      cases hgb : hasGraphicsBit q <;> cases hps : q.presentationSupport <;>
        simp only [hgb, hps, if_true, if_false, Bool.or_true, Bool.or_false,
          Bool.false_eq_true, Option.isSome_some] <;>
        rw [findQueueFamiliesLoop_closed_form rest (i + 1) _ _] <;>
        simp

/-- C2 (amended): queue-family resolution scans families in index order and
stops at the start of the first iteration at which both indices are recorded
(after scannedCount families); within that scanned prefix each test's
assignment overwrites the previously recorded index, so the resolved
graphicsFamily is the LAST graphics-capable index of the scanned prefix, and
likewise for presentation — not the first satisfying index. -/
theorem findQueueFamilies_last_sat_within_scan (props : List VkQueueFamilyProperties) :
    findQueueFamilies props =
      { graphicsFamily :=
          lastSatIdxFrom hasGraphicsBit 0
            (props.take (scannedCount props false false)),
        presentationFamily :=
          lastSatIdxFrom (fun q => q.presentationSupport) 0
            (props.take (scannedCount props false false)) } := by
  have h := findQueueFamiliesLoop_closed_form props 0 none none
  rw [findQueueFamilies] at *
  rw [h]
  simp only [Option.isSome_none]
  have hnone : ∀ o : Option Nat, orElseOpt o none = o := fun o => by cases o <;> rfl
  rw [hnone, hnone]

/-- C2 counterexample: in the list whose family 0 is graphics-capable but
not presenting and whose family 1 is both, the least graphics-capable index
is 0, yet findQueueFamilies resolves graphicsFamily to 1: the recorded index
is overwritten, not first-wins. -/
theorem findQueueFamilies_overwrites_first_graphics :
    hasGraphicsBit { queueFlags := 1, presentationSupport := false } = true ∧
    (findQueueFamilies
      [{ queueFlags := 1, presentationSupport := false },
       { queueFlags := 1, presentationSupport := true }]).graphicsFamily = some 1 ∧
    (findQueueFamilies
      [{ queueFlags := 1, presentationSupport := false },
       { queueFlags := 1, presentationSupport := true }]).graphicsFamily ≠ some 0 := by
  decide

/-- Closed form of the createImageViews loop: it emits one creation event per
leading successful call, in index order from i, and succeeds iff every call
succeeds, failing with ImageViewCreationFailed at the first failing call. -/
theorem createImageViewsLoop_closed_form :
    ∀ (ok : List Bool) (i : Nat),
      createImageViewsLoop ok i =
        ((List.range (ok.takeWhile id).length).map (fun j => Event.CreateImageView (i + j)),
          if ok.all id then .ok () else .error .ImageViewCreationFailed)
  | [], i => by simp [createImageViewsLoop]
  | true :: rest, i => by
    rw [createImageViewsLoop]
    rw [createImageViewsLoop_closed_form rest (i + 1)]
    simp only [if_true, List.takeWhile, id, List.all_cons, Bool.true_and,
      List.length_cons, List.range_succ_eq_map, List.map_cons, List.map_map]
    congr 1
    congr 1
    congr 1
    funext j
    simp only [Function.comp]
    congr 1
    omega
  | false :: rest, i => by
    rw [createImageViewsLoop]
    simp [List.takeWhile, id]

/-- No event the createImageViews loop emits is a destroy call. -/
theorem createImageViewsLoop_no_destroy (ok : List Bool) (i : Nat) :
    ∀ ev ∈ (createImageViewsLoop ok i).1, ev.isDestroy = false := by
  intro ev hev
  rw [createImageViewsLoop_closed_form] at hev
  simp only [List.mem_map, List.mem_range] at hev
  obtain ⟨j, _, rfl⟩ := hev
  rfl

/-- C4 (amended): when a vkCreateImageView call fails, createImageViews
aborts the batch at once with ImageViewCreationFailed, but the views already
created for earlier images are NOT released: the loop emits exactly the
creation events for the leading successful prefix and no destroy event, so
the partial-success state is retained when the error propagates. -/
theorem createImageViews_abort_retains_views (ok : List Bool) :
    createImageViewsLoop ok 0 =
      ((List.range (ok.takeWhile id).length).map Event.CreateImageView,
        if ok.all id then .ok () else .error .ImageViewCreationFailed) ∧
    (∀ ev ∈ (createImageViewsLoop ok 0).1, ev.isDestroy = false) := by
  constructor
  · rw [createImageViewsLoop_closed_form]
    simp
  · exact createImageViewsLoop_no_destroy ok 0

/-- C4 witness: a batch of two images whose second view creation fails keeps
the created view 0 (a creation event, which is not a destroy call) and
errors. -/
theorem createImageViews_abort_retains_views_witness :
    createImageViewsLoop [true, false] 0 =
      ([Event.CreateImageView 0], .error .ImageViewCreationFailed) ∧
    (Event.CreateImageView 0).isDestroy = false := by
  have h := createImageViews_abort_retains_views [true, false]
  exact ⟨h.1.trans (by rfl), h.2 (Event.CreateImageView 0) (by decide)⟩

/-- C4 counterexample: with image 0 succeeding and image 1 failing, the batch
errors while view 0 was created and no destroy call for it was emitted — the
partial-success state is retained, contradicting the claim that
already-created views are released before the error propagates. -/
theorem createImageViews_partial_state_cex :
    (createImageViewsLoop [true, false] 0).2 = .error .ImageViewCreationFailed ∧
    Event.CreateImageView 0 ∈ (createImageViewsLoop [true, false] 0).1 ∧
    Event.DestroyImageView 0 ∉ (createImageViewsLoop [true, false] 0).1 :=
  ⟨rfl, by decide, by decide⟩

/-- C9: after a fully successful startup, teardown releases all image views
first, then the swapchain, then the logical device, then the surface, then
the instance — the reverse of the acquisition order of the resource
classes — as shown by the full event trace of a successful run. -/
theorem runTrace_success_teardown (v : Bool) (env : Env)
    (hval : (v && !env.layerSupport) = false)
    (hi : env.instanceOk = true) (hs : env.surfaceOk = true)
    (hd : ∃ d, pickPhysicalDevice env.devices = .ok d)
    (hl : env.logicalDeviceOk = true) (hsw : env.swapchainOk = true)
    (hall : env.imageViewOk.all id = true) :
    runTrace v env =
      ([Event.CreateInstance, Event.CreateSurface, Event.CreateDevice, Event.CreateSwapchain]
          ++ (List.range env.imageViewOk.length).map Event.CreateImageView
          ++ ((List.range env.imageViewOk.length).map Event.DestroyImageView
            ++ [Event.DestroySwapchain, Event.DestroyDevice,
                Event.DestroySurface, Event.DestroyInstance]),
        .ok ()) := by
  obtain ⟨d, hpick⟩ := hd
  have htake : env.imageViewOk.takeWhile id = env.imageViewOk :=
    List.takeWhile_eq_self_iff.mpr (fun x hx => by
      have := List.all_eq_true.mp hall x hx
      simpa using this)
  simp [runTrace, hpick, hval, hi, hs, hl, hsw,
    createImageViewsLoop_closed_form, hall, htake, cleanup, List.append_assoc]

/-- C9 witness: with two swapchain images and every driver call succeeding,
the run emits the four creations, two view creations, and then the teardown
sequence view 0, view 1, swapchain, device, surface, instance. -/
theorem runTrace_success_teardown_witness :
    runTrace false envAllOk =
      ([Event.CreateInstance, Event.CreateSurface, Event.CreateDevice,
        Event.CreateSwapchain, Event.CreateImageView 0, Event.CreateImageView 1,
        Event.DestroyImageView 0, Event.DestroyImageView 1, Event.DestroySwapchain,
        Event.DestroyDevice, Event.DestroySurface, Event.DestroyInstance],
        .ok ()) := by
  have h := runTrace_success_teardown false envAllOk rfl rfl rfl
    ⟨fakeSuitableDevice, by rfl⟩ rfl rfl rfl
  exact h.trans (by rfl)

/-- C3 (amended): whenever a setup step fails, the process exits with
failure status, but nothing already acquired is released: the trace of a
failing run contains no destroy call at all (cleanup runs only after a fully
successful startup and main loop). -/
theorem runTrace_failure_no_release (v : Bool) (env : Env) (e : VkError)
    (h : (runTrace v env).2 = .error e) :
    mainExit v env = EXIT_FAILURE ∧
    ∀ ev ∈ (runTrace v env).1, ev.isDestroy = false := by
  refine ⟨by unfold mainExit; rw [h], ?_⟩
  intro ev hev
  unfold runTrace at h hev
  by_cases h1 : (v && !env.layerSupport) = true
  · rw [if_pos h1] at hev
    simp at hev
  · rw [if_neg h1] at h hev
    by_cases h2 : (!env.instanceOk) = true
    · rw [if_pos h2] at hev
      simp at hev
    · rw [if_neg h2] at h hev
      by_cases h3 : (!env.surfaceOk) = true
      · rw [if_pos h3] at hev
        simp at hev
        subst hev
        rfl
      · rw [if_neg h3] at h hev
        rcases hpick : pickPhysicalDevice env.devices with e1 | d
        · rw [hpick] at h hev
          simp at hev
          rcases hev with hev | hev <;> subst hev <;> rfl
        · rw [hpick] at h hev
          by_cases h4 : (!env.logicalDeviceOk) = true
          · rw [if_pos h4] at hev
            simp at hev
            rcases hev with hev | hev <;> subst hev <;> rfl
          · rw [if_neg h4] at h hev
            by_cases h5 : (!env.swapchainOk) = true
            · rw [if_pos h5] at hev
              simp at hev
              rcases hev with hev | hev | hev <;> subst hev <;> rfl
            · rw [if_neg h5] at h hev
              rcases hloop : createImageViewsLoop env.imageViewOk 0 with ⟨vevs, r⟩
              rw [hloop] at h hev
              cases r with
              | error e2 =>
                simp only [List.mem_append, List.mem_cons, List.not_mem_nil,
                  or_false] at hev
                rcases hev with (hev | hev | hev | hev) | hev
                · subst hev; rfl
                · subst hev; rfl
                · subst hev; rfl
                · subst hev; rfl
                · have := createImageViewsLoop_no_destroy env.imageViewOk 0 ev
                  rw [hloop] at this
                  exact this hev
              | ok u =>
                simp at h

/-- C3 witness: the swapchain-creation failure after instance, surface and
logical device were created exits with failure status, and a member of its
trace (the device creation) is not a destroy call. -/
theorem runTrace_failure_no_release_witness :
    mainExit false envSwapchainFails = EXIT_FAILURE ∧
    Event.CreateDevice.isDestroy = false := by
  have h := runTrace_failure_no_release false envSwapchainFails
    .SwapchainCreationFailed (by rfl)
  exact ⟨h.1, h.2 Event.CreateDevice (by decide)⟩

/-- C3 counterexample: when swapchain creation fails after the instance, the
surface and the logical device were created, the process exits with failure
status while the trace contains no destroy call — the three acquired
resources are not released, contradicting the claimed reverse-order
release. -/
theorem runTrace_failure_no_release_cex :
    runTrace false envSwapchainFails =
      ([Event.CreateInstance, Event.CreateSurface, Event.CreateDevice],
        .error .SwapchainCreationFailed) ∧
    (runTrace false envSwapchainFails).1.filter Event.isDestroy = [] ∧
    mainExit false envSwapchainFails = EXIT_FAILURE :=
  ⟨rfl, by decide, rfl⟩

end VulkanStarter
